import Mathlib

/-!
Verification of the Halo playback core specification against a shallow
embedding of the Go sources.

Conventions of the embedding:
* Go `float64` arithmetic is modelled over `ℚ` (exact rational arithmetic)
  except for the trigonometric oscillator, which is modelled over `ℝ`.
* Go `int` and `int64` values are modelled as `ℤ`; conversions that
  truncate in Go (`int(x)`, `byte(x)`) are modelled explicitly.
* Go maps whose iteration order is irrelevant are modelled as association
  lists keyed by their Go key type; Go map *iteration* is modelled as an
  arbitrary permutation of the entries, since Go's map iteration order is
  unspecified.
* `time.Time` and `time.Duration` are modelled as rational counts of
  nanoseconds, matching Go's internal representation.
-/

namespace Halo

/-- Go's `int(x)` conversion from `float64`: truncation toward zero. -/
def goTrunc (q : ℚ) : ℤ :=
  if q < 0 then -(⌊-q⌋) else ⌊q⌋

/-- Go's `math.Round`: rounds half away from zero. -/
def goRound (q : ℚ) : ℤ :=
  if q < 0 then -(⌊-q + 1/2⌋) else ⌊q + 1/2⌋

/-- Go's `byte(v)` conversion from `int`: reduction modulo 256. -/
def goByte (v : ℤ) : ℤ := v % 256

/-- `clamp` from `utils/clamp.go`: reorders the bounds with min/max and
clips `t` into them. -/
def clamp (t lo hi : ℚ) : ℚ :=
  let lo' := min lo hi
  let hi' := max lo hi
  max (min t hi') lo'

/-! ## DMX compositor (`fixture/dmx_writer.go`) -/

/-- `dmxOperation` from `fixture/dmx_writer.go`; `univ` is the Go field
`universe` (a Lean keyword). -/
structure DmxOperation where
  univ : ℤ
  channel : ℤ
  value : ℤ
deriving DecidableEq, Repr

/-- Errors produced by `DMXState.set`; the Go code returns
`fmt.Errorf("dmx channel (%d) not in range, op=%v", ...)`. -/
inductive DmxError where
  | channelOutOfRange (channel : ℤ)
deriving DecidableEq, Repr

/-- The `universes map[int][]byte` field of `DMXState`, as an association
list from universe number to its frame. -/
abbrev DmxUniverses := List (ℤ × List ℤ)

/-- Go map read `s.universes[universe]` (`nil` when absent). -/
def lookupFrame (us : DmxUniverses) (u : ℤ) : Option (List ℤ) :=
  match us with
  | [] => none
  | (k, f) :: rest => if k = u then some f else lookupFrame rest u

/-- Go map write `s.universes[universe] = frame`. -/
def storeFrame (us : DmxUniverses) (u : ℤ) (frame : List ℤ) : DmxUniverses :=
  match us with
  | [] => [(u, frame)]
  | (k, f) :: rest =>
      if k = u then (k, frame) :: rest else (k, f) :: storeFrame rest u frame

/-- `DMXState.initializeUniverse`: if the universe is absent, allocate its
frame with `make([]byte, 255)` — 255 zero bytes (the slip: a DMX universe
has 512 channels). -/
def initUniverse (us : DmxUniverses) (u : ℤ) : DmxUniverses :=
  match lookupFrame us u with
  | some _ => us
  | none => storeFrame us u (List.replicate 255 0)

/-- One iteration of the loop body of `DMXState.set`: reject the operation
unless `1 ≤ channel ≤ 255`, otherwise initialize the universe and store
`byte(value)` at index `channel − 1`. -/
def dmxSetOp (us : DmxUniverses) (op : DmxOperation) : Except DmxError DmxUniverses :=
  if op.channel < 1 ∨ op.channel > 255 then
    .error (.channelOutOfRange op.channel)
  else
    let us' := initUniverse us op.univ
    let frame := (lookupFrame us' op.univ).getD []
    .ok (storeFrame us' op.univ (frame.set (op.channel - 1).toNat (goByte op.value)))

/-- `DMXState.set(ops ...dmxOperation)`: applies the operations in order,
returning the first error (operations before the failing one remain
applied in Go; the returned state here is dropped on error exactly as the
caller observes only the error). -/
def dmxSet (us : DmxUniverses) (ops : List DmxOperation) : Except DmxError DmxUniverses :=
  match ops with
  | [] => .ok us
  | op :: rest =>
      match dmxSetOp us op with
      | .error e => .error e
      | .ok us' => dmxSet us' rest

/-! ## Metronome (`rhythm` package) -/

/-- `Metronome` from the `rhythm` package. `startTime` is a `time.Time`
modelled as rational nanoseconds since the epoch; `tempo` is in BPM. -/
structure Metronome where
  startTime : ℚ
  tempo : ℚ
  beatsPerBar : ℤ
  barsPerPhrase : ℤ
deriving DecidableEq, Repr

/-- `beatsToMilliseconds`: `(60000.0 / tempo) * float64(beats)`. -/
def beatsToMilliseconds (beats : ℤ) (tempo : ℚ) : ℚ :=
  (60000 / tempo) * (beats : ℚ)

/-- `NewMetronome()`: tempo 120, 4 beats per bar, 8 bars per phrase,
origin at the creation instant (taken as a parameter here since the Go
code reads the wall clock). -/
def NewMetronome (now : ℚ) : Metronome :=
  { startTime := now, tempo := 120, beatsPerBar := 4, barsPerPhrase := 8 }

/-- `Metronome.GetBeatInterval`: milliseconds per beat. -/
def Metronome.GetBeatInterval (m : Metronome) : ℚ :=
  beatsToMilliseconds 1 m.tempo

/-- `instant.Sub(start).Seconds()*1000`: a nanosecond duration expressed
in milliseconds. -/
def durToMs (ns : ℚ) : ℚ := ns / 1000000

/-- `markerNumber(instant, start, interval)`:
`int(math.Floor(instant.Sub(start).Seconds()*1000/interval)) + 1`. -/
def markerNumber (instant start interval : ℚ) : ℤ :=
  ⌊durToMs (instant - start) / interval⌋ + 1

/-- `markerPhase(instant, start, interval)`: `ratio - math.Floor(ratio)`
for `ratio = instant.Sub(start).Seconds()*1000/interval`. -/
def markerPhase (instant start interval : ℚ) : ℚ :=
  durToMs (instant - start) / interval - ⌊durToMs (instant - start) / interval⌋

/-- `Metronome.SetTempo(bpm)` evaluated at wall-clock `instant`
(nanoseconds). The Go code computes the current beat and phase, then sets
`startTime = instant.Add(-time.Duration(math.Round(newInterval*(phase+beat-1))))`.
`newInterval` is in *milliseconds* but `time.Duration(·)` counts
*nanoseconds*, so the origin moves back by `round(...)` nanoseconds. No
validation of `bpm` is performed. -/
def Metronome.SetTempo (m : Metronome) (bpm : ℚ) (instant : ℚ) : Metronome :=
  let interval := m.GetBeatInterval
  let beat := markerNumber instant m.startTime interval
  let phase := markerPhase instant m.startTime interval
  let newInterval := beatsToMilliseconds 1 bpm
  { m with
    startTime := instant - (goRound (newInterval * (phase + (beat : ℚ) - 1)) : ℚ)
    tempo := bpm }

/-! ## Fade interpolation (`utils.GetDimmerFadeValue`, used by
`Fixture.SetState`) -/

/-- `GetDimmerFadeValue(target, step, numSteps)` from the `utils` package:
`progress := float64(step)/float64(numSteps-1)`; exact progress 1 returns
`target`; otherwise the value is `int(clamp(progress*float64(target), 0, 255))`.
(The Go division yields ±Inf/NaN when `numSteps = 1`; that input is
outside the range of every theorem below.) -/
def GetDimmerFadeValue (target step numSteps : ℤ) : ℤ :=
  let progress : ℚ := (step : ℚ) / ((numSteps : ℚ) - 1)
  if progress = 1 then target
  else goTrunc (clamp (progress * (target : ℚ)) 0 255)

/-- The intensity value emitted at fade step `step` of `numSteps` by
`Fixture.SetState`: the Go loop body calls
`utils.GetDimmerFadeValue(target.Intensity, x, numSteps)`; the current
state fetched from the manager (`prev`) is not consulted for intensity. -/
def emittedFadeIntensity (prev target step numSteps : ℤ) : ℤ :=
  GetDimmerFadeValue target step numSteps

/-- Modelled from the spec (for comparison with the code): the value at
fade progress `p` is `round(prev + (target − prev)·ease(p))` with linear
easing `ease(p) = p`. -/
def specFadeValue (prev target : ℤ) (p : ℚ) : ℤ :=
  goRound ((prev : ℚ) + ((target : ℚ) - (prev : ℚ)) * p)

/-! ## Oscillator shapes (`multicue/effect/effect.go` and the fixed
sawtooth shape builder) -/

/-- `sineWaveFunc(t, frequency)` from `multicue/effect/effect.go`:
`math.Sin(2 * math.Pi * frequency * t)`. -/
noncomputable def sineWaveFunc (t frequency : ℝ) : ℝ :=
  Real.sin (2 * Real.pi * frequency * t)

/-- Modelled from the spec (for comparison with the code): the sine
oscillator shape `sine(φ) = ½ + ½·sin(2πφ)`. -/
noncomputable def specSineShape (phi : ℝ) : ℝ :=
  1/2 + 1/2 * Real.sin (2 * Real.pi * phi)

/-- `BuildFixedSawtoothShapeFn(down)`: returns `1.0 - phase` when `down`
and `phase` otherwise. -/
def BuildFixedSawtoothShapeFn (down : Bool) : ℚ → ℚ :=
  if down then (fun phase => 1 - phase) else (fun phase => phase)

/-! ## Patch loading (`config/patch.go` and `NewManager` from the
`fixture` package) -/

/-- `PatchedFixture` from `config/patch.go`; `univ` is the Go field
`Universe`. -/
structure PatchedFixture where
  name : String
  address : ℤ
  univ : ℤ
  profile : String
deriving DecidableEq, Repr

/-- `patchFrontPars()` from `config/patch.go`. -/
def patchFrontPars : List PatchedFixture :=
  [ { name := "left_middle_par", address := 115, univ := 1, profile := "shehds-par" },
    { name := "right_middle_par", address := 139, univ := 1, profile := "shehds-par" } ]

/-- `patchUplightPars()` from `config/patch.go`. -/
def patchUplightPars : List PatchedFixture :=
  [ { name := "left_uplight_par", address := 122, univ := 1, profile := "shehds-par" },
    { name := "right_uplight_par", address := 130, univ := 1, profile := "shehds-par" } ]

/-- `patchBeamBars()` from `config/patch.go`. -/
def patchBeamBars : List PatchedFixture :=
  [ { name := "left_beam_bar", address := 163, univ := 1, profile := "shehds-led-bar-beam-8x12w" },
    { name := "right_beam_bar", address := 57, univ := 1, profile := "shehds-led-bar-beam-8x12w" } ]

/-- `patchSpotLights()` from `config/patch.go`. -/
def patchSpotLights : List PatchedFixture :=
  [ { name := "left_spot", address := 20, univ := 1, profile := "shehds-led-spot-60w" },
    { name := "right_spot", address := 31, univ := 1, profile := "shehds-led-spot-60w" } ]

/-- `patchWashLights()` from `config/patch.go`. -/
def patchWashLights : List PatchedFixture :=
  [ { name := "left_wash", address := 20, univ := 1, profile := "shehds-led-wash-7x18w-rgbwa-uv" },
    { name := "right_wash", address := 31, univ := 1, profile := "shehds-led-wash-7x18w-rgbwa-uv" } ]

/-- `PatchFixtures()` from `config/patch.go`: the concatenation of all
patch sections. -/
def PatchFixtures : List PatchedFixture :=
  patchFrontPars ++ patchUplightPars ++ patchBeamBars ++ patchSpotLights ++ patchWashLights

/-- Number of channels each fixture profile occupies, per the profile
channel maps in `config` (`shehds-par` has 8 channels, the 60W spot 9,
the 7x18W wash 10, the 8x12W beam bar 9, its 38-channel mode 38). -/
def profileChannelCount (profileName : String) : ℤ :=
  if profileName = "shehds-par" then 8
  else if profileName = "shehds-led-spot-60w" then 9
  else if profileName = "shehds-led-wash-7x18w-rgbwa-uv" then 10
  else if profileName = "shehds-led-bar-beam-8x12w" then 9
  else if profileName = "shehds-led-bar-beam-8x12w-38ch" then 38
  else 0

/-- Modelled from the spec (for comparison with the code): two patched
fixtures conflict when their channel footprints
`[address, address + channel_count)` intersect within the same universe. -/
def footprintsOverlap (f g : PatchedFixture) : Prop :=
  f.univ = g.univ ∧
  f.address < g.address + profileChannelCount g.profile ∧
  g.address < f.address + profileChannelCount f.profile

instance (f g : PatchedFixture) : Decidable (footprintsOverlap f g) := by
  unfold footprintsOverlap
  infer_instance

/-- The loop of `NewManager` (`fixture` package): walk the patched
fixtures, erroring on a duplicate *name* (`m.items[x.Name]` already set),
otherwise registering the fixture under its name. No other validation is
performed. -/
def newManagerLoop (items : List (String × PatchedFixture)) :
    List PatchedFixture → Except String (List (String × PatchedFixture))
  | [] => .ok items
  | x :: rest =>
      if x.name ∈ items.map Prod.fst then
        .error x.name
      else
        newManagerLoop (items ++ [(x.name, x)]) rest

/-- `NewManager(config)`: builds the fixture manager from the patched
fixtures, rejecting duplicates by name. -/
def NewManager (patched : List PatchedFixture) : Except String (List (String × PatchedFixture)) :=
  newManagerLoop [] patched

/-- Whether an `error`-or-`ok` result is `ok` (the caller's success
test on `NewManager`'s error return). -/
def exceptAccepted {ε α : Type} (e : Except ε α) : Bool :=
  match e with
  | .ok _ => true
  | .error _ => false

/-- Whether `NewManager` accepts a patch list. -/
def acceptsPatch (patched : List PatchedFixture) : Bool :=
  exceptAccepted (NewManager patched)

/-! ## Fixture groups (`fixture/group.go` — map-backed — and
`fixture/fixture_group.go` — slice-backed) -/

/-- The map-backed `FixtureGroup` of `fixture/group.go`:
`Fixtures map[string]*Fixture`. Entries are kept here in insertion order,
but Go map iteration order is unspecified, so iteration may yield any
permutation of the entries. Fixture pointers are modelled as integers. -/
structure MapFixtureGroup where
  entries : List (String × ℤ)
deriving DecidableEq, Repr

/-- `FixtureGroup.AddFixture(id, fixture)`: Go map insert (replaces an
existing key, otherwise appends). -/
def MapFixtureGroup.addFixture (fg : MapFixtureGroup) (id : String) (fx : ℤ) :
    MapFixtureGroup :=
  if id ∈ fg.entries.map Prod.fst then
    ⟨fg.entries.map (fun e => if e.1 = id then (id, fx) else e)⟩
  else
    ⟨fg.entries ++ [(id, fx)]⟩

/-- `NewFixtureGroup()`: an empty map. -/
def NewFixtureGroup : MapFixtureGroup := ⟨[]⟩

/-- Go `range` over a map: the iteration order is unspecified, so any
permutation of the entries is a possible visit order. -/
def mapIterPossible (fg : MapFixtureGroup) (order : List (String × ℤ)) : Prop :=
  order.Perm fg.entries

instance (fg : MapFixtureGroup) (order : List (String × ℤ)) :
    Decidable (mapIterPossible fg order) := by
  unfold mapIterPossible
  infer_instance

/-- The slice-backed `FixtureGroup` of `fixture/fixture_group.go`:
`Fixtures []*Fixture`. -/
structure SliceFixtureGroup where
  fixtures : List ℤ
deriving DecidableEq, Repr

/-- Loading a slice-backed group from a declared fixture list. -/
def loadSliceGroup (declared : List ℤ) : SliceFixtureGroup := ⟨declared⟩

/-- Go `range` over a slice visits elements in index order. -/
def SliceFixtureGroup.iterate (fg : SliceFixtureGroup) : List ℤ := fg.fixtures

/-- `FixtureGroup.Count()`: `len(fg.Fixtures)`. -/
def SliceFixtureGroup.count (fg : SliceFixtureGroup) : ℤ := fg.fixtures.length

/-! ## StateManager (`fixture` package, `attribute_group.go`) with an
explicit heap, to express Go's pointer/value semantics. -/

/-- `State` from the `fixture` package: intensity, RGB, pan, tilt. -/
structure FixtureState where
  intensity : ℤ
  r : ℤ
  g : ℤ
  b : ℤ
  pan : ℤ
  tilt : ℤ
deriving DecidableEq, Repr

instance : Inhabited FixtureState := ⟨⟨0, 0, 0, 0, 0, 0⟩⟩

/-- A heap of `State` cells addressed by allocation index. The manager's
`states map[string]State` stores its `State` values in manager-owned
cells; `&state` of a local copy is a *fresh* cell. -/
structure Heap where
  cells : List FixtureState
deriving DecidableEq, Repr

/-- Read the cell at address `a`. -/
def Heap.read (h : Heap) (a : ℕ) : FixtureState :=
  h.cells.getD a default

/-- Overwrite the cell at address `a` (what a Go write through a
`*State` pointer does). -/
def Heap.write (h : Heap) (a : ℕ) (v : FixtureState) : Heap :=
  ⟨h.cells.set a v⟩

/-- Allocate a fresh cell holding `v`; its address is the previous heap
size. -/
def Heap.alloc (h : Heap) (v : FixtureState) : Heap :=
  ⟨h.cells ++ [v]⟩

/-- `StateManager.states`: name → address of the manager-owned cell
holding that fixture's current `State`. -/
structure StateManager where
  states : List (String × ℕ)
deriving DecidableEq, Repr

/-- Association-list lookup backing the Go map read `m.states[name]`. -/
def lookupAddrList (l : List (String × ℕ)) (name : String) : Option ℕ :=
  match l with
  | [] => none
  | (k, a) :: rest => if k = name then some a else lookupAddrList rest name

/-- Go map read `m.states[name]` (present test). -/
def StateManager.lookupAddr (m : StateManager) (name : String) : Option ℕ :=
  lookupAddrList m.states name

/-- `StateManager.SetState(name, new)`: `m.states[name] = new` — a value
copy into manager-owned storage (overwrite the existing cell, or allocate
a manager-owned cell for a new name). -/
def StateManager.setState (m : StateManager) (h : Heap) (name : String)
    (v : FixtureState) : StateManager × Heap :=
  match m.lookupAddr name with
  | some a => (m, h.write a v)
  | none => (⟨m.states ++ [(name, h.cells.length)]⟩, h.alloc v)

/-- `StateManager.GetState(name)`: `state, ok := m.states[name]` copies
the stored value into a fresh local, and `&state` returns a pointer to
that fresh copy; absent names return `nil`. The returned address is the
freshly allocated cell. -/
def StateManager.getState (m : StateManager) (h : Heap) (name : String) :
    Option ℕ × Heap :=
  match m.lookupAddr name with
  | some a => (some h.cells.length, h.alloc (h.read a))
  | none => (none, h)

/-- Well-formedness: every manager-owned cell address is allocated. -/
def StateManager.wf (m : StateManager) (h : Heap) : Prop :=
  ∀ p ∈ m.states, p.2 < h.cells.length

instance (m : StateManager) (h : Heap) : Decidable (m.wf h) := by
  unfold StateManager.wf
  infer_instance

/-! ## Theorems -/

/-- C1: the claim says a DMX compositor write succeeds exactly for
channels in [1, 512]. The code's own doc comment says `DMXState` "holds
the DMX512 values", yet `DMXState.set` rejects every channel above 255
and allocates 255-byte frames: channel 300 — inside the claimed range —
is rejected with a channel-out-of-range error, channel 255 succeeds
(storing `byte(value)` at index channel − 1), and channel 256 is already
rejected. -/
theorem C1_dmx_write_channel_bound_is_255 :
    ((1 : ℤ) ≤ 300 ∧ (300 : ℤ) ≤ 512) ∧
    dmxSet [] [⟨1, 300, 10⟩] = .error (.channelOutOfRange 300) ∧
    dmxSet [] [⟨1, 255, 10⟩] = .ok [(1, (List.replicate 255 (0 : ℤ)).set 254 10)] ∧
    dmxSet [] [⟨1, 256, 10⟩] = .error (.channelOutOfRange 256) := by
  refine ⟨⟨by norm_num, by norm_num⟩, rfl, ?_, rfl⟩
  rfl

/-- C3: the claim (and the code's own comment on `SetTempo`) says the
origin is adjusted so that the beat number and (to within 1e-9) the beat
phase at the call instant are unchanged. The code computes the adjustment
`newInterval·(phase + beat − 1)` in milliseconds but subtracts it as a
`time.Duration`, i.e. *nanoseconds*: starting from a fresh 120 BPM
metronome at origin 0, at instant 750 ms the beat is 2 with phase 1/2,
yet after `SetTempo(60)` the origin lands 1500 ns (not 1500 ms) before
the instant, so the beat collapses to 1 and the phase to 1.5e-6 — both
conjuncts of the claim fail. -/
theorem C3_setTempo_nanosecond_bug :
    markerNumber 750000000 (NewMetronome 0).startTime ((NewMetronome 0).GetBeatInterval) = 2 ∧
    markerPhase 750000000 (NewMetronome 0).startTime ((NewMetronome 0).GetBeatInterval) = 1/2 ∧
    ((NewMetronome 0).SetTempo 60 750000000).startTime = 749998500 ∧
    markerNumber 750000000 ((NewMetronome 0).SetTempo 60 750000000).startTime
      (((NewMetronome 0).SetTempo 60 750000000).GetBeatInterval) = 1 ∧
    ¬ |markerPhase 750000000 ((NewMetronome 0).SetTempo 60 750000000).startTime
        (((NewMetronome 0).SetTempo 60 750000000).GetBeatInterval) - 1/2| < 1/1000000000 := by
  unfold NewMetronome Metronome.SetTempo Metronome.GetBeatInterval beatsToMilliseconds
    markerNumber markerPhase durToMs goRound
  norm_num
  rw [abs_of_nonneg (by norm_num)]
  norm_num

/-- C4 (counterexample): the claim says `set_tempo(5)` is rejected with
the metronome state unchanged; in the code `SetTempo` has no validation,
so the call is accepted and the tempo (previously 120) becomes 5. -/
theorem C4_setTempo_5_changes_state :
    (NewMetronome 0).tempo = 120 ∧
    ((NewMetronome 0).SetTempo 5 0).tempo = 5 := by
  exact ⟨rfl, rfl⟩

/-- C4 (amended): `SetTempo` validates nothing: every bpm — inside or
outside [20, 400] — is accepted and the stored tempo becomes exactly the
argument. -/
theorem C4_setTempo_accepts_every_bpm (m : Metronome) (bpm instant : ℚ) :
    (m.SetTempo bpm instant).tempo = bpm := by
  rfl

/-- C2 (counterexample): the claim says the value emitted at fade
progress p is `round(prev + (target − prev)·ease(p))`. With previous
value 200, target 0, fade step 1 of 3 (progress exactly 1/2), the spec
formula gives 100, but the code emits
`GetDimmerFadeValue(0, 1, 3) = 0`: the previous value is never consulted
and the ramp runs from 0 to target. -/
theorem C2_fade_formula_counterexample :
    (1 : ℚ) / ((3 : ℚ) - 1) = 1/2 ∧
    emittedFadeIntensity 200 0 1 3 = 0 ∧
    specFadeValue 200 0 (1/2) = 100 ∧
    (0 : ℤ) ≠ 100 := by
  refine ⟨by norm_num, ?_, ?_, by norm_num⟩
  · unfold emittedFadeIntensity GetDimmerFadeValue goTrunc clamp
    norm_num
  · unfold specFadeValue goRound
    norm_num

/-- C2 (amended): the interpolated intensity emitted at fade step `step`
of `numSteps` is `⌊(step·target)/(numSteps − 1)⌋` — a truncated linear
ramp from 0 to `target` — and is independent of the previous value
(`ease` is linear in the step index, but `prev` never enters; at the last
step the exact-progress-1 branch returns `target`, agreeing with the
formula). -/
theorem C2_fade_truncated_ramp_from_zero (prev target step numSteps : ℤ)
    (hn : 2 ≤ numSteps) (hs0 : 0 ≤ step) (hs : step ≤ numSteps - 1)
    (ht0 : 0 ≤ target) (ht : target ≤ 255) :
    emittedFadeIntensity prev target step numSteps =
      ⌊((step * target : ℤ) : ℚ) / ((numSteps : ℚ) - 1)⌋ ∧
    emittedFadeIntensity prev target step numSteps =
      emittedFadeIntensity 0 target step numSteps := by
  refine ⟨?_, rfl⟩
  have hn' : (0 : ℚ) < (numSteps : ℚ) - 1 := by
    have h2 : (2 : ℚ) ≤ (numSteps : ℚ) := by exact_mod_cast hn
    linarith
  have key : ((step * target : ℤ) : ℚ) / ((numSteps : ℚ) - 1) =
      ((step : ℚ) / ((numSteps : ℚ) - 1)) * (target : ℚ) := by
    push_cast
    ring
  rw [key]
  unfold emittedFadeIntensity GetDimmerFadeValue
  by_cases hp : ((step : ℚ)) / ((numSteps : ℚ) - 1) = 1
  · rw [if_pos hp, hp, one_mul, Int.floor_intCast]
  · rw [if_neg hp]
    have hp0 : (0 : ℚ) ≤ (step : ℚ) / ((numSteps : ℚ) - 1) := by
      apply div_nonneg
      · exact_mod_cast hs0
      · linarith
    have hp1 : (step : ℚ) / ((numSteps : ℚ) - 1) ≤ 1 := by
      rw [div_le_one hn']
      have hsq : ((step : ℚ)) + 1 ≤ (numSteps : ℚ) := by
        exact_mod_cast (by omega : step + 1 ≤ numSteps)
      linarith
    have ht0' : (0 : ℚ) ≤ (target : ℚ) := by exact_mod_cast ht0
    have ht' : (target : ℚ) ≤ 255 := by exact_mod_cast ht
    set p := (step : ℚ) / ((numSteps : ℚ) - 1) with hpdef
    have hv0 : (0 : ℚ) ≤ p * target := mul_nonneg hp0 ht0'
    have hv255 : p * target ≤ 255 := by
      calc p * target ≤ 1 * target := mul_le_mul_of_nonneg_right hp1 ht0'
        _ = target := one_mul _
        _ ≤ 255 := ht'
    unfold clamp goTrunc
    have h1 : min (0 : ℚ) 255 = 0 := by norm_num
    have h2 : max (0 : ℚ) 255 = 255 := by norm_num
    simp only [h1, h2]
    rw [min_eq_left hv255, max_eq_left hv0, if_neg (not_lt.mpr hv0)]

/-- C2 (witness): the amended fade theorem applied at the repository's
own test vector `GetDimmerFadeValue(250, 15, 30)` (which the test pins to
129 = ⌊3750/29⌋), with an arbitrary nonzero previous value 7. -/
theorem C2_fade_truncated_ramp_witness :
    ((2 : ℤ) ≤ 30 ∧ (0 : ℤ) ≤ 15 ∧ (15 : ℤ) ≤ 30 - 1 ∧ (0 : ℤ) ≤ 250 ∧ (250 : ℤ) ≤ 255) ∧
    (emittedFadeIntensity 7 250 15 30 = ⌊((15 * 250 : ℤ) : ℚ) / ((30 : ℚ) - 1)⌋ ∧
     emittedFadeIntensity 7 250 15 30 = emittedFadeIntensity 0 250 15 30) :=
  ⟨⟨by norm_num, by norm_num, by norm_num, by norm_num, by norm_num⟩,
   C2_fade_truncated_ramp_from_zero 7 250 15 30 (by norm_num) (by norm_num)
     (by norm_num) (by norm_num) (by norm_num)⟩

/-- C6 (counterexample): the claim says the sine oscillator shape is
`½ + ½·sin(2πφ)` with raw output in [0, 1]. At cycle phase φ = 3/4 (with
frequency 1) the spec formula gives 0, but `sineWaveFunc` — which is
`sin(2π·frequency·t)` with no offset or scaling — evaluates to −1, which
also escapes [0, 1]. -/
theorem C6_sine_shape_counterexample :
    ((0 : ℝ) ≤ 3/4 ∧ (3/4 : ℝ) < 1) ∧
    sineWaveFunc (3/4) 1 = -1 ∧
    specSineShape (3/4) = 0 ∧
    (-1 : ℝ) ≠ 0 ∧
    ¬ (0 : ℝ) ≤ sineWaveFunc (3/4) 1 := by
  have hsin : sineWaveFunc (3/4) 1 = -1 := by
    unfold sineWaveFunc
    have h : 2 * Real.pi * 1 * (3/4 : ℝ) = Real.pi + Real.pi / 2 := by ring
    rw [h, Real.sin_add, Real.sin_pi, Real.cos_pi, Real.sin_pi_div_two,
      Real.cos_pi_div_two]
    norm_num
  have hspec : specSineShape (3/4) = 0 := by
    unfold specSineShape
    have h : 2 * Real.pi * (3/4 : ℝ) = Real.pi + Real.pi / 2 := by ring
    rw [h, Real.sin_add, Real.sin_pi, Real.cos_pi, Real.sin_pi_div_two,
      Real.cos_pi_div_two]
    norm_num
  refine ⟨⟨by norm_num, by norm_num⟩, hsin, hspec, by norm_num, ?_⟩
  rw [hsin]
  norm_num

/-- C6 (amended): the sine oscillator shape is the pure sine
`sin(2π·frequency·t)`, so its raw output lies in [−1, 1] — not [0, 1] —
and it attains −1 (at t = 3/4 with frequency 1). -/
theorem C6_sine_shape_range :
    (∀ t f : ℝ, sineWaveFunc t f = Real.sin (2 * Real.pi * f * t) ∧
      -1 ≤ sineWaveFunc t f ∧ sineWaveFunc t f ≤ 1) ∧
    sineWaveFunc (3/4) 1 = -1 := by
  constructor
  · intro t f
    exact ⟨rfl, Real.neg_one_le_sin _, Real.sin_le_one _⟩
  · unfold sineWaveFunc
    have h : 2 * Real.pi * 1 * (3/4 : ℝ) = Real.pi + Real.pi / 2 := by ring
    rw [h, Real.sin_add, Real.sin_pi, Real.cos_pi, Real.sin_pi_div_two,
      Real.cos_pi_div_two]
    norm_num

/-- C7: for every cycle phase φ in [0, 1), the fixed sawtooth shape built
with `down = false` returns exactly φ and the one built with
`down = true` returns exactly 1 − φ. -/
theorem C7_fixed_sawtooth_shapes (phi : ℚ) (h0 : 0 ≤ phi) (h1 : phi < 1) :
    BuildFixedSawtoothShapeFn false phi = phi ∧
    BuildFixedSawtoothShapeFn true phi = 1 - phi := by
  exact ⟨rfl, rfl⟩

/-- C7 (witness): the sawtooth shapes evaluated at φ = 1/4. -/
theorem C7_fixed_sawtooth_shapes_witness :
    ((0 : ℚ) ≤ 1/4 ∧ (1/4 : ℚ) < 1) ∧
    (BuildFixedSawtoothShapeFn false (1/4) = 1/4 ∧
     BuildFixedSawtoothShapeFn true (1/4) = 1 - 1/4) :=
  ⟨⟨by norm_num, by norm_num⟩,
   C7_fixed_sawtooth_shapes (1/4) (by norm_num) (by norm_num)⟩

/-- C8: for any instant `t`, origin `s` (nanoseconds) and beat interval
`i > 0` (milliseconds), the snapshot beat phase equals
`frac(elapsed/i) = elapsed/i − ⌊elapsed/i⌋` (where `elapsed` is the
elapsed time expressed in milliseconds) and lies strictly in [0, 1), and
the beat counter equals `⌊elapsed/i⌋ + 1`; in particular the counter at
the origin itself is 1, so beats are 1-indexed from the origin. -/
theorem C8_marker_number_and_phase (t s i : ℚ) (hi : 0 < i) :
    markerPhase t s i = Int.fract (durToMs (t - s) / i) ∧
    0 ≤ markerPhase t s i ∧
    markerPhase t s i < 1 ∧
    markerNumber t s i = ⌊durToMs (t - s) / i⌋ + 1 ∧
    markerNumber s s i = 1 := by
  have hfract : markerPhase t s i = Int.fract (durToMs (t - s) / i) := rfl
  refine ⟨hfract, ?_, ?_, rfl, ?_⟩
  · rw [hfract]
    exact Int.fract_nonneg _
  · rw [hfract]
    exact Int.fract_lt_one _
  · unfold markerNumber durToMs
    norm_num

/-- C8 (witness): at 750 ms past the origin with a 500 ms beat interval
the phase is frac(1.5) and the counter is ⌊1.5⌋ + 1 = 2. -/
theorem C8_marker_number_and_phase_witness :
    (0 : ℚ) < 500 ∧
    (markerPhase 750000000 0 500 = Int.fract (durToMs (750000000 - 0) / 500) ∧
     0 ≤ markerPhase 750000000 0 500 ∧
     markerPhase 750000000 0 500 < 1 ∧
     markerNumber 750000000 0 500 = ⌊durToMs (750000000 - 0) / 500⌋ + 1 ∧
     markerNumber 0 0 500 = 1) :=
  ⟨by norm_num, C8_marker_number_and_phase 750000000 0 500 (by norm_num)⟩

/-- Helper for C5: `newManagerLoop` succeeds exactly when the incoming
fixture names are pairwise distinct and disjoint from the names already
registered. -/
theorem newManagerLoop_ok_iff (l : List PatchedFixture) :
    ∀ items : List (String × PatchedFixture),
    exceptAccepted (newManagerLoop items l) = true ↔
      ((l.map PatchedFixture.name).Nodup ∧
       ∀ n ∈ l.map PatchedFixture.name, n ∉ items.map Prod.fst) := by
  induction l with
  | nil =>
      intro items
      simp [newManagerLoop, exceptAccepted]
  | cons x xs ih =>
      intro items
      by_cases hx : x.name ∈ items.map Prod.fst
      · simp only [newManagerLoop, if_pos hx]
        constructor
        · intro h
          exact absurd h (by simp [exceptAccepted])
        · rintro ⟨-, hmem⟩
          exact absurd hx (hmem x.name (by simp))
      · simp only [newManagerLoop, if_neg hx]
        rw [ih]
        simp only [List.map_cons, List.nodup_cons, List.map_append, List.map_nil,
          List.mem_append, List.mem_cons, List.mem_singleton, List.not_mem_nil,
          or_false]
        constructor
        · rintro ⟨hnd, hmem⟩
          refine ⟨⟨?_, hnd⟩, ?_⟩
          · intro hxin
            exact (hmem x.name hxin) (Or.inr rfl)
          · intro n hn
            rcases hn with rfl | hn
            · exact hx
            · exact fun hcontra => (hmem n hn) (Or.inl hcontra)
        · rintro ⟨⟨hxnotin, hnd⟩, hmem⟩
          refine ⟨hnd, ?_⟩
          intro n hn hcontra
          rcases hcontra with hcontra | hcontra
          · exact (hmem n (Or.inr hn)) hcontra
          · exact hxnotin (hcontra ▸ hn)

/-- C5 (counterexample): the claim says a patch with two fixtures whose
channel footprints overlap in the same universe is rejected. The
repository's own default patch contains `left_spot` (universe 1, address
20, 9-channel profile) and `left_wash` (universe 1, address 20,
10-channel profile) — overlapping footprints — yet `NewManager` accepts
the whole patch: only duplicate *names* are checked. -/
theorem C5_overlapping_footprints_accepted :
    (⟨"left_spot", 20, 1, "shehds-led-spot-60w"⟩ : PatchedFixture) ∈ PatchFixtures ∧
    (⟨"left_wash", 20, 1, "shehds-led-wash-7x18w-rgbwa-uv"⟩ : PatchedFixture) ∈ PatchFixtures ∧
    footprintsOverlap ⟨"left_spot", 20, 1, "shehds-led-spot-60w"⟩
      ⟨"left_wash", 20, 1, "shehds-led-wash-7x18w-rgbwa-uv"⟩ ∧
    acceptsPatch PatchFixtures = true := by
  refine ⟨by decide, by decide, by decide, by decide⟩

/-- C5 (amended): `NewManager` rejects a patch exactly when two patched
fixtures share the same *name* (the duplicate-fixtures error); channel
footprint overlaps are not checked, so a patch is accepted whenever all
names are distinct — even when footprints overlap. -/
theorem C5_patch_rejects_exactly_duplicate_names (patched : List PatchedFixture) :
    acceptsPatch patched = true ↔ (patched.map PatchedFixture.name).Nodup := by
  have h := newManagerLoop_ok_iff patched []
  simp only [List.map_nil, List.not_mem_nil, not_false_iff, implies_true,
    and_true] at h
  exact h

/-- C9 (counterexample): the claim says iterating a fixture group visits
fixtures in declared order. The `FixtureGroup` of `fixture/group.go`
stores its fixtures in a Go map (`map[string]*Fixture`), whose iteration
order is unspecified: for a group built by adding "a" then "b", the
reversed visit order is as possible as the declared one and differs from
it. -/
theorem C9_map_group_order_unspecified :
    (NewFixtureGroup.addFixture "a" 1).addFixture "b" 2 =
      (⟨[("a", 1), ("b", 2)]⟩ : MapFixtureGroup) ∧
    mapIterPossible ((NewFixtureGroup.addFixture "a" 1).addFixture "b" 2)
      [("b", 2), ("a", 1)] ∧
    ([("b", 2), ("a", 1)] : List (String × ℤ)) ≠ [("a", 1), ("b", 2)] := by
  refine ⟨by decide, by decide, by decide⟩

/-- C9 (amended): the slice-backed `FixtureGroup` of
`fixture/fixture_group.go` (`Fixtures []*Fixture`) iterates in exactly
the declared order, and — iteration being a function of the declared list
alone — any two loads of the same declared list iterate identically; the
map-backed `FixtureGroup` of `fixture/group.go` gives no such guarantee. -/
theorem C9_slice_group_order_preserved (declared : List ℤ) :
    (loadSliceGroup declared).iterate = declared ∧
    (loadSliceGroup declared).count = declared.length := by
  exact ⟨rfl, rfl⟩

/-- Helper for C10: reading the freshly allocated cell returns the
allocated value. -/
theorem Heap.read_alloc_last (h : Heap) (v : FixtureState) :
    (h.alloc v).read h.cells.length = v := by
  unfold Heap.read Heap.alloc
  rw [List.getD_append_right _ _ _ _ (le_refl _)]
  simp

/-- Helper for C10: allocation does not disturb existing cells. -/
theorem Heap.read_alloc_lt (h : Heap) (v : FixtureState) (a : ℕ)
    (ha : a < h.cells.length) : (h.alloc v).read a = h.read a := by
  unfold Heap.read Heap.alloc
  exact List.getD_append _ _ _ _ ha

/-- Helper for C10: writing one cell does not disturb another. -/
theorem Heap.read_write_ne (h : Heap) (a b : ℕ) (v : FixtureState) (hne : b ≠ a) :
    (h.write b v).read a = h.read a := by
  unfold Heap.read Heap.write
  rw [List.getD_eq_getElem?_getD, List.getD_eq_getElem?_getD]
  rw [List.getElem?_set_ne hne]

/-- Helper for C10: a successful association-list lookup is a member. -/
theorem lookupAddrList_mem (l : List (String × ℕ)) (name : String) (a : ℕ)
    (h : lookupAddrList l name = some a) : (name, a) ∈ l := by
  induction l with
  | nil => simp [lookupAddrList] at h
  | cons p rest ih =>
      obtain ⟨k, b⟩ := p
      by_cases hk : k = name
      · subst hk
        unfold lookupAddrList at h
        rw [if_pos rfl] at h
        injection h with hba
        subst hba
        exact List.mem_cons_self _ _
      · unfold lookupAddrList at h
        rw [if_neg hk] at h
        exact List.mem_cons_of_mem _ (ih h)

/-- C10: for a well-formed manager, `GetState` on a set name returns a
pointer to a *freshly allocated* copy of the stored state — the copy
holds the stored value, and writing any value through the returned
pointer leaves every manager-owned state cell unchanged (only `SetState`
writes those) — and `GetState` on a never-set name returns `nil` without
touching the heap. -/
theorem C10_getState_returns_fresh_copy (m : StateManager) (h : Heap)
    (name : String) (hwf : m.wf h) :
    (∀ a, m.lookupAddr name = some a →
      m.getState h name = (some h.cells.length, h.alloc (h.read a)) ∧
      (h.alloc (h.read a)).read h.cells.length = h.read a ∧
      (∀ v name' a', m.lookupAddr name' = some a' →
        ((h.alloc (h.read a)).write h.cells.length v).read a' = h.read a')) ∧
    (m.lookupAddr name = none → m.getState h name = (none, h)) := by
  constructor
  · intro a ha
    refine ⟨?_, Heap.read_alloc_last h _, ?_⟩
    · unfold StateManager.getState
      rw [ha]
    · intro v name' a' ha'
      have hmem' : (name', a') ∈ m.states := lookupAddrList_mem _ _ _ ha'
      have hlt : a' < h.cells.length := hwf _ hmem'
      rw [Heap.read_write_ne _ _ _ _ (by omega)]
      exact Heap.read_alloc_lt h _ _ hlt
  · intro hnone
    unfold StateManager.getState
    rw [hnone]

/-- C10 (witness): a manager holding one fixture "par1" whose state cell
is address 0 of a one-cell heap; `GetState "par1"` returns a fresh copy
at address 1, mutating it leaves cell 0 intact, and `GetState "other"`
returns `nil`. -/
theorem C10_getState_returns_fresh_copy_witness :
    (StateManager.mk [("par1", 0)]).wf ⟨[⟨255, 10, 20, 30, 0, 0⟩]⟩ ∧
    ((∀ a, (StateManager.mk [("par1", 0)]).lookupAddr "par1" = some a →
      (StateManager.mk [("par1", 0)]).getState ⟨[⟨255, 10, 20, 30, 0, 0⟩]⟩ "par1" =
        (some (Heap.mk [⟨255, 10, 20, 30, 0, 0⟩]).cells.length,
         (Heap.mk [⟨255, 10, 20, 30, 0, 0⟩]).alloc
           ((Heap.mk [⟨255, 10, 20, 30, 0, 0⟩]).read a)) ∧
      ((Heap.mk [⟨255, 10, 20, 30, 0, 0⟩]).alloc
          ((Heap.mk [⟨255, 10, 20, 30, 0, 0⟩]).read a)).read
          (Heap.mk [⟨255, 10, 20, 30, 0, 0⟩]).cells.length =
        (Heap.mk [⟨255, 10, 20, 30, 0, 0⟩]).read a ∧
      (∀ v name' a',
        (StateManager.mk [("par1", 0)]).lookupAddr name' = some a' →
        (((Heap.mk [⟨255, 10, 20, 30, 0, 0⟩]).alloc
            ((Heap.mk [⟨255, 10, 20, 30, 0, 0⟩]).read a)).write
            (Heap.mk [⟨255, 10, 20, 30, 0, 0⟩]).cells.length v).read a' =
          (Heap.mk [⟨255, 10, 20, 30, 0, 0⟩]).read a')) ∧
    ((StateManager.mk [("par1", 0)]).lookupAddr "par1" = none →
      (StateManager.mk [("par1", 0)]).getState ⟨[⟨255, 10, 20, 30, 0, 0⟩]⟩ "par1" =
        (none, ⟨[⟨255, 10, 20, 30, 0, 0⟩]⟩))) :=
  ⟨by decide,
   C10_getState_returns_fresh_copy (StateManager.mk [("par1", 0)])
     ⟨[⟨255, 10, 20, 30, 0, 0⟩]⟩ "par1" (by decide)⟩

end Halo
